import Mathlib

/-!
Verification of mysqldump-to-csv (src/mysqldump_to_csv.py).

The script streams a MySQL dump line by line, extracting per-table CSV files.
We give a shallow embedding of its functions over Lean strings and lists:

* `csvReadLine` embeds the Python `csv.reader` state machine of CPython
  (restricted to the dialect used at line 88 of the source: delimiter comma,
  quotechar single quote, escapechar backslash, doublequote off, strict on),
* `processColumn` / `processRecord` / `parse_values` embed `parse_values`,
* `gck_loop` / `get_create_keys` embed `get_create_keys`,
* `is_insert`, `get_insert_values`, `values_sanity_check`, `write_keys`
  embed the functions of the same names,
* `main_fuel` embeds the driver loop of `main`, producing a trace of sink
  events (open, header write, row write, close) so that the sink lifecycle
  can be stated.

Python exceptions (IndexError, AssertionError, csv.Error, TypeError and an
unbound local) are modelled with `Except String`; a raised exception aborts
the run, so the driver propagates errors.
-/

/-- Characters that the Python str.strip() method removes (ASCII range). -/
def isPySpace (c : Char) : Bool :=
  c == ' ' || c == Char.ofNat 9 || c == Char.ofNat 10 || c == Char.ofNat 13 ||
  c == Char.ofNat 11 || c == Char.ofNat 12

/-- Python str.strip(): drop whitespace from both ends. -/
def pyStrip (l : List Char) : List Char :=
  ((l.dropWhile isPySpace).reverse.dropWhile isPySpace).reverse

/-- Python str.strip(ch): drop the given character from both ends. -/
def pyStripChar (ch : Char) (l : List Char) : List Char :=
  ((l.dropWhile (· == ch)).reverse.dropWhile (· == ch)).reverse

/-- Python str.split(sep) for a one-character separator: split at every
occurrence, keeping empty pieces.  Never returns an empty list. -/
def splitChar (sep : Char) : List Char → List (List Char)
  | [] => [[]]
  | c :: cs =>
    if c == sep then [] :: splitChar sep cs
    else
      match splitChar sep cs with
      | [] => [[c]]
      | g :: gs => (c :: g) :: gs

/-- Everything after the first occurrence of a character (empty if absent):
the piece `partition(ch)[2]` of Python. -/
def afterChar (ch : Char) : List Char → List Char
  | [] => []
  | c :: cs => if c == ch then cs else afterChar ch cs

/-- Everything before the first occurrence of a character (all if absent):
the piece `partition(ch)[0]` of Python. -/
def beforeChar (ch : Char) (l : List Char) : List Char :=
  l.takeWhile (· != ch)

/-- Python str.startswith, via list prefixes.  Defined by recursion on the
candidate prefix so that the empty-prefix case reduces definitionally. -/
def hasPrefixL : List Char → List Char → Bool
  | [], _ => true
  | a :: as, l =>
    match l with
    | [] => false
    | b :: bs => (a == b) && hasPrefixL as bs

/-- Everything after the first occurrence of a substring (empty if absent):
the piece `partition(sep)[2]` of Python, for a non-empty separator. -/
def afterSubstr (sep : List Char) : List Char → List Char
  | [] => []
  | c :: cs =>
    if hasPrefixL sep (c :: cs) then (c :: cs).drop sep.length
    else afterSubstr sep cs

/-- Python s[-2:] — the last two characters (fewer when the string is shorter). -/
def lastTwo (l : List Char) : List Char :=
  (l.reverse.take 2).reverse

/-- Python s[:-2]. -/
def dropLast2 (l : List Char) : List Char :=
  l.dropLast.dropLast

/-- The single-quote character, the csv quotechar of the script. -/
def sqChar : Char := Char.ofNat 39

/-- The single-quote character as a string, for building test inputs. -/
def sqStr : String := String.mk [sqChar]

/-- The NUL sentinel `chr(0)` that `parse_values` appends for NULL or empty
fields (source line 100). -/
def nulStr : String := String.mk [Char.ofNat 0]

/-! ### The csv.reader state machine

CPython parses each input line character by character, with an end-of-line
marker fed after the final character (modelled with `none`).  The states and
transitions below follow `parse_process_char` of Modules/_csv.c, specialised
to the dialect built at source lines 88-93: delimiter comma, quotechar
single quote, escapechar backslash, doublequote off, strict on.  Since
doublequote is off the quote-in-quoted-field state is unreachable and is
omitted. -/

inductive CsvSt where
  | startRecord
  | startField
  | escapedChar
  | afterEscapedCrnl
  | inField
  | inQuotedField
  | escapeInQuotedField
  | eatCrnl
deriving DecidableEq, Repr

structure CsvReader where
  st : CsvSt
  field : List Char
  fields : List String
deriving DecidableEq, Repr

def csvInit : CsvReader := ⟨CsvSt.startRecord, [], []⟩

/-- Close the current field and append it to the record. -/
def saveField (p : CsvReader) : CsvReader :=
  { p with field := [], fields := p.fields ++ [String.mk p.field] }

def addChar (p : CsvReader) (c : Char) : CsvReader :=
  { p with field := p.field ++ [c] }

def isEolChar (c : Char) : Bool :=
  c == Char.ofNat 10 || c == Char.ofNat 13

/-- Transitions for the expecting-a-field state (also entered by fallthrough
from the start-of-record state). -/
def csvStartField (p : CsvReader) (c : Option Char) : CsvReader :=
  match c with
  | none => saveField { p with st := CsvSt.startRecord }
  | some ch =>
    if isEolChar ch then saveField { p with st := CsvSt.eatCrnl }
    else if ch == sqChar then { p with st := CsvSt.inQuotedField }
    else if ch == Char.ofNat 92 then { p with st := CsvSt.escapedChar }
    else if ch == ',' then saveField p
    else { addChar p ch with st := CsvSt.inField }

/-- Transitions for the unquoted-field state (also entered by fallthrough
from the after-escaped-newline state). -/
def csvInField (p : CsvReader) (c : Option Char) : CsvReader :=
  match c with
  | none => saveField { p with st := CsvSt.startRecord }
  | some ch =>
    if isEolChar ch then saveField { p with st := CsvSt.eatCrnl }
    else if ch == Char.ofNat 92 then { p with st := CsvSt.escapedChar }
    else if ch == ',' then saveField { p with st := CsvSt.startField }
    else addChar p ch

/-- One step of the reader; `none` is the end-of-line marker. -/
def csvProcessChar (p : CsvReader) (c : Option Char) : Except String CsvReader :=
  match p.st with
  | CsvSt.startRecord =>
    match c with
    | none => Except.ok p
    | some ch =>
      if isEolChar ch then Except.ok { p with st := CsvSt.eatCrnl }
      else Except.ok (csvStartField { p with st := CsvSt.startField } (some ch))
  | CsvSt.startField => Except.ok (csvStartField p c)
  | CsvSt.escapedChar =>
    match c with
    | none => Except.ok { addChar p (Char.ofNat 10) with st := CsvSt.inField }
    | some ch =>
      if isEolChar ch then Except.ok { addChar p ch with st := CsvSt.afterEscapedCrnl }
      else Except.ok { addChar p ch with st := CsvSt.inField }
  | CsvSt.afterEscapedCrnl =>
    match c with
    | none => Except.ok p
    | some ch => Except.ok (csvInField p (some ch))
  | CsvSt.inField => Except.ok (csvInField p c)
  | CsvSt.inQuotedField =>
    match c with
    | none => Except.ok p
    | some ch =>
      if ch == Char.ofNat 92 then Except.ok { p with st := CsvSt.escapeInQuotedField }
      else if ch == sqChar then Except.ok { p with st := CsvSt.inField }
      else Except.ok (addChar p ch)
  | CsvSt.escapeInQuotedField =>
    match c with
    | none => Except.ok { addChar p (Char.ofNat 10) with st := CsvSt.inQuotedField }
    | some ch => Except.ok { addChar p ch with st := CsvSt.inQuotedField }
  | CsvSt.eatCrnl =>
    match c with
    | none => Except.ok { p with st := CsvSt.startRecord }
    | some ch =>
      if isEolChar ch then Except.ok p
      else Except.error "new-line character seen in unquoted field"

/-- Feed all characters of a line, then the end-of-line marker. -/
def csvFeed (p : CsvReader) : List Char → Except String CsvReader
  | [] => csvProcessChar p none
  | c :: cs =>
    if c == Char.ofNat 0 then Except.error "line contains NUL"
    else
      match csvProcessChar p (some c) with
      | Except.error e => Except.error e
      | Except.ok q => csvFeed q cs

/-- The record produced by the reader for a single input line.  In strict
mode an unterminated quoted field at end of input is an error. -/
def csvReadLine (s : String) : Except String (List String) :=
  match csvFeed csvInit s.data with
  | Except.error e => Except.error e
  | Except.ok p =>
    if p.st = CsvSt.startRecord then Except.ok p.fields
    else Except.error "unexpected end of data"

/-! ### parse_values (source lines 81-136) -/

/-- The body of the inner loop of `parse_values` (source lines 97-129) for
one decoded field: returns the new row accumulator together with the row
flushed to the sink, if any.  `latest_row[-1][-1]` on an empty string is an
IndexError. -/
def processColumn (latest_row : List String) (column : String) :
    Except String (List String × Option (List String)) :=
  if column.data = [] ∨ column = "NULL" then
    Except.ok (latest_row ++ [nulStr], none)
  else if column.data.head? = some '(' then
    match latest_row.getLast? with
    | none =>
      -- the accumulator is empty: no new row, strip the leading paren
      Except.ok ([String.mk (column.data.drop 1)], none)
    | some lastF =>
      match lastF.data.getLast? with
      | none => Except.error "IndexError"
      | some c =>
        if c = ')' then
          -- previous field closed a tuple: flush it, then start fresh with
          -- the leading paren stripped
          Except.ok ([String.mk (column.data.drop 1)],
                     some (latest_row.dropLast ++ [String.mk lastF.data.dropLast]))
        else
          Except.ok (latest_row ++ [column], none)
  else
    Except.ok (latest_row ++ [column], none)

/-- Process the decoded fields of one reader record, then apply the
end-of-statement check of source lines 134-136: when the final accumulated
field ends in close-paren semicolon, strip both and flush.  Accessing
`latest_row[-1]` of an empty accumulator is an IndexError. -/
def processRecord : List String → List (List String) → List String →
    Except String (List (List String))
  | latest_row, out, [] =>
    match latest_row.getLast? with
    | none => Except.error "IndexError"
    | some f =>
      if lastTwo f.data = [')', ';'] then
        Except.ok (out ++ [latest_row.dropLast ++ [String.mk (dropLast2 f.data)]])
      else Except.ok out
  | latest_row, out, c :: cs =>
    match processColumn latest_row c with
    | Except.error e => Except.error e
    | Except.ok (acc, none) => processRecord acc out cs
    | Except.ok (acc, some row) => processRecord acc (out ++ [row]) cs

/-- `parse_values(values, outfile)`: the list of rows written to the sink.
The reader is given the single string `values`, hence yields one record. -/
def parse_values (values : String) : Except String (List (List String)) :=
  match csvReadLine values with
  | Except.error e => Except.error e
  | Except.ok record => processRecord [] [] record

/-! ### get_create_keys (source lines 27-61) -/

/-- Marker prefix of a table definition opener (source lines 34, 149). -/
def createMarker : List Char := "CREATE TABLE".data

/-- Marker prefix of an insert statement (source line 19). -/
def insertMarker : List Char := "INSERT INTO".data

/-- The four structural terminator prefixes of source line 39. -/
def pkMarker : List Char := "  PRIMARY KEY".data
def keyMarker : List Char := "  KEY".data
def engineMarker : List Char := ") ENGINE".data
def uniqueMarker : List Char := "  UNIQUE KEY".data

/-- A line that stops the consumption of column definitions (source line 39). -/
def isCreateEnd (line : String) : Bool :=
  hasPrefixL pkMarker line.data || hasPrefixL keyMarker line.data ||
  hasPrefixL engineMarker line.data || hasPrefixL uniqueMarker line.data

/-- The type keywords of source lines 46-56, as character lists. -/
def kwInt : List Char := "int".data
def kwBigint : List Char := "bigint".data
def kwTimestamp : List Char := "timestamp".data
def kwDatetime : List Char := "datetime".data
def kwDate : List Char := "date".data
def kwDecimal : List Char := "decimal".data
def kwBit1 : List Char := "bit(1)".data

/-- The suffix appended to a column name, chosen from the second token of the
column definition line by the prefix ladder of source lines 46-59. -/
def typeSuffix (t : List Char) : String :=
  if hasPrefixL kwInt t || hasPrefixL kwBigint t then ":INTEGER"
  else if hasPrefixL kwTimestamp t then ":TIMESTAMP"
  else if hasPrefixL kwDatetime t then ":DATETIME"
  else if hasPrefixL kwDate t then ":DATE"
  else if hasPrefixL kwDecimal t then ":FLOAT64"
  else if hasPrefixL kwBit1 t then ":BOOL"
  else ":STRING"

/-- The backtick character, used as an identifier delimiter in the dump. -/
def btChar : Char := Char.ofNat 96

/-- Source lines 44-60 for one column definition line: strip, split on single
spaces, strip backticks from the first token, append the type suffix chosen
from the second token.  A line with fewer than two tokens raises IndexError
at `parts[1]`. -/
def parseColumnDef (line : String) : Except String String :=
  match splitChar ' ' (pyStrip line.data) with
  | [] => Except.error "IndexError"
  | [_] => Except.error "IndexError"
  | p0 :: p1 :: _ => Except.ok (String.mk (pyStripChar btChar p0) ++ typeSuffix p1)

/-- Source line 35: the substring between the first and second backtick. -/
def get_table_name (line : String) : String :=
  String.mk (beforeChar btChar (afterChar btChar line.data))

/-- The loop of `get_create_keys` over the shared line iterator.  Returns the
table name seen so far (none before any opener line), the accumulated keys,
and the lines left unconsumed in the iterator after the loop stops. -/
def gck_loop : List String → Bool → Option String → List String →
    Except String (Option String × List String × List String)
  | [], _, table_name, keys => Except.ok (table_name, keys, [])
  | line :: rest, reading_keys, table_name, keys =>
    if hasPrefixL createMarker line.data then
      gck_loop rest true (some (get_table_name line)) keys
    else if isCreateEnd line then
      Except.ok (table_name, keys, rest)
    else if reading_keys then
      match parseColumnDef line with
      | Except.error e => Except.error e
      | Except.ok k => gck_loop rest reading_keys table_name (keys ++ [k])
    else
      gck_loop rest reading_keys table_name keys

/-- `get_create_keys(fileinput)`: table name and keys, together with the
lines the shared iterator has not consumed.  Returning with `table_name`
never assigned is an unbound local error in Python. -/
def get_create_keys (lines : List String) :
    Except String (String × List String × List String) :=
  match gck_loop lines false none [] with
  | Except.error e => Except.error e
  | Except.ok (none, _, _) => Except.error "UnboundLocalError"
  | Except.ok (some n, ks, rest) => Except.ok (n, ks, rest)

/-! ### Insert recognition (source lines 15-25, 64-71) -/

/-- Source line 19. -/
def is_insert (line : String) : Bool :=
  hasPrefixL insertMarker line.data || false

/-- The separator of source line 25: backtick, space, VALUES, space. -/
def valuesSep : List Char := [btChar] ++ " VALUES ".data

/-- Source line 25. -/
def get_insert_values (line : String) : String :=
  String.mk (afterSubstr valuesSep line.data)

/-- Source lines 64-71: assert the value list is non-empty and starts with an
open paren; a failed assert aborts the run. -/
def values_sanity_check (values : String) : Except String Bool :=
  if values.data = [] then Except.error "AssertionError"
  else if values.data.head? = some '(' then Except.ok true
  else Except.error "AssertionError"

/-! ### The csv writer (source lines 73-79 and 95)

`write_keys` and `parse_values` write through `csv.writer(outfile,
quoting=csv.QUOTE_MINIMAL)` with the default dialect: delimiter comma,
quotechar double quote, doublequote on, no escapechar, line terminator
CR LF.  A field is quoted only when it contains the delimiter, the
quotechar or a line-terminator character; quote characters are doubled.
A record with fields but empty text is written as a pair of quotes. -/

def dqChar : Char := Char.ofNat 34

def csvNeedsQuote (s : String) : Bool :=
  s.data.any fun c =>
    c == ',' || c == dqChar || c == Char.ofNat 10 || c == Char.ofNat 13

def csvWriteField (s : String) : String :=
  if csvNeedsQuote s then
    String.mk ([dqChar] ++
      (s.data.map fun c => if c == dqChar then [dqChar, dqChar] else [c]).flatten ++
      [dqChar])
  else s

def joinWith (sep : String) : List String → String
  | [] => ""
  | [x] => x
  | x :: y :: xs => x ++ sep ++ joinWith sep (y :: xs)

def csvWriteRow (row : List String) : String :=
  let joined := joinWith "," (row.map csvWriteField)
  (if row ≠ [] ∧ joined = "" then String.mk [dqChar, dqChar] else joined) ++ "\r\n"

/-- Source lines 73-79: the text written for the header row. -/
def write_keys (keys : List String) : String :=
  csvWriteRow keys

/-! ### The driver (source lines 139-162)

The sink lifecycle is modelled as a trace of events.  Errors carry the trace
accumulated before the abort, so that statements about what was written
before a fatal error can be made. -/

inductive Event where
  | openSink : String → Event
  | writeHeader : List String → Event
  | writeRow : List String → Event
  | closeSink : Event
deriving DecidableEq, Repr

/-- The driver loop of `main`, with explicit structural fuel (every step
consumes at least one input line, so any fuel above the number of lines
gives the full run).  On a table definition opener the schema extractor
consumes lines from the shared iterator; the lines it leaves are the ones
the loop continues with.  The open sink is `output`; an insert while no
sink is open is the Python TypeError of `csv.writer(None)`. -/
def main_fuel : Nat → List String → Option String → List Event →
    Except (String × List Event) (List Event)
  | 0, _, _, trace => Except.error ("fuel", trace)
  | _ + 1, [], output, trace =>
    Except.ok (trace ++ match output with
      | some _ => [Event.closeSink]
      | none => [])
  | fuel + 1, line :: rest, output, trace =>
    if hasPrefixL createMarker line.data then
      match get_create_keys (line :: rest) with
      | Except.error e => Except.error (e, trace)
      | Except.ok (table_name, keys, rest2) =>
        -- close any open sink, open the new one, write the header
        let trace2 := trace ++
          (match output with
            | some _ => [Event.closeSink]
            | none => []) ++
          [Event.openSink (table_name ++ ".csv"), Event.writeHeader keys]
        main_fuel fuel rest2 (some (table_name ++ ".csv")) trace2
    else if is_insert line then
      match values_sanity_check (get_insert_values line) with
      | Except.error e => Except.error (e, trace)
      | Except.ok _ =>
        match output with
        | none => Except.error ("TypeError", trace)
        | some _ =>
          match parse_values (get_insert_values line) with
          | Except.error e => Except.error (e, trace)
          | Except.ok rows =>
            main_fuel fuel rest output (trace ++ rows.map Event.writeRow)
    else
      main_fuel fuel rest output trace

/-- The whole run of `main` on the input lines. -/
def mainRun (lines : List String) : Except (String × List Event) (List Event) :=
  main_fuel (lines.length + 1) lines none []

/-- Sink discipline of a trace: scanning left to right with the open flag,
an open while open, a close or write while closed, or an open flag left set
at the end all fail.  `runBalance false t = some false` says the trace keeps
at most one sink open at every point, closes it before every reopen, writes
only while a sink is open, and has closed it by the end. -/
def runBalance : Bool → List Event → Option Bool
  | b, [] => some b
  | b, Event.openSink _ :: es => if b then none else runBalance true es
  | b, Event.closeSink :: es => if b then runBalance false es else none
  | b, Event.writeHeader _ :: es => if b then runBalance b es else none
  | b, Event.writeRow _ :: es => if b then runBalance b es else none

/-- Map a fallible function over a list, stopping at the first error. -/
def mapExcept (f : String → Except String String) : List String →
    Except String (List String)
  | [] => Except.ok []
  | a :: as =>
    match f a with
    | Except.error e => Except.error e
    | Except.ok b =>
      match mapExcept f as with
      | Except.error e => Except.error e
      | Except.ok bs => Except.ok (b :: bs)

/-! ### Concrete inputs used by witnesses -/

/-- The table definition block of testable property P1. -/
def tableLinesC5 : List String :=
  ["CREATE TABLE `t` (\n",
   "  `id` int(11) NOT NULL,\n",
   "  `name` varchar(50) DEFAULT NULL,\n",
   "  `created_at` timestamp NULL DEFAULT NULL,\n",
   "  PRIMARY KEY (`id`)\n"]

/-- Two consecutive table definition blocks with inserts, for the sink
lifecycle claim. -/
def linesC7 : List String :=
  ["CREATE TABLE `a` (\n",
   "  `x` int(11) NOT NULL,\n",
   ") ENGINE=InnoDB;\n",
   "INSERT INTO `a` VALUES (1),(2);\n",
   "CREATE TABLE `b` (\n",
   "  `y` varchar(5) DEFAULT NULL,\n",
   ") ENGINE=InnoDB;\n",
   "INSERT INTO `b` VALUES (7);\n"]

/-! ### Helper lemmas -/

theorem hasPrefixL_exists {p t : List Char} (h : hasPrefixL p t = true) :
    ∃ r, t = p ++ r := by
  induction p generalizing t with
  | nil => exact ⟨t, rfl⟩
  | cons a as ih =>
    cases t with
    | nil => simp [hasPrefixL] at h
    | cons b bs =>
      simp only [hasPrefixL, Bool.and_eq_true, beq_iff_eq] at h
      obtain ⟨r, hr⟩ := ih h.2
      exact ⟨r, by rw [h.1, hr]; rfl⟩

/-- An insert line is never a table definition opener. -/
theorem insert_marker_not_create {l : List Char}
    (h : hasPrefixL insertMarker l = true) : hasPrefixL createMarker l = false := by
  obtain ⟨r, rfl⟩ := hasPrefixL_exists h
  rfl

/-- A structural terminator line is never a table definition opener. -/
theorem create_end_not_create {line : String}
    (h : isCreateEnd line = true) : hasPrefixL createMarker line.data = false := by
  simp only [isCreateEnd, Bool.or_eq_true] at h
  rcases h with ((h | h) | h) | h <;>
    · obtain ⟨r, hr⟩ := hasPrefixL_exists h
      rw [hr]; rfl

theorem runBalance_append (xs ys : List Event) (b : Bool) :
    runBalance b (xs ++ ys) = (runBalance b xs).bind fun b2 => runBalance b2 ys := by
  induction xs generalizing b with
  | nil => cases b <;> simp [runBalance]
  | cons e es ih =>
    cases e <;> cases b <;> simp [runBalance, ih]

theorem runBalance_writeRows (rows : List (List String)) :
    runBalance true (rows.map Event.writeRow) = some true := by
  induction rows with
  | nil => rfl
  | cons r rs ih => simp [runBalance, ih]

/-- Consuming well-formed column definition lines accumulates their keys. -/
theorem gck_loop_cols (cols : List String) (tail : List String) (tn : String)
    (acc ks : List String)
    (hc : ∀ l ∈ cols, hasPrefixL createMarker l.data = false ∧ isCreateEnd l = false)
    (hks : mapExcept parseColumnDef cols = Except.ok ks) :
    gck_loop (cols ++ tail) true (some tn) acc =
      gck_loop tail true (some tn) (acc ++ ks) := by
  induction cols generalizing acc ks with
  | nil =>
    simp only [mapExcept] at hks
    cases hks
    simp
  | cons c cs ih =>
    obtain ⟨hc1, hc2⟩ := hc c (by simp)
    have hcs : ∀ l ∈ cs, hasPrefixL createMarker l.data = false ∧ isCreateEnd l = false :=
      fun l hl => hc l (by simp [hl])
    simp only [mapExcept] at hks
    cases hfc : parseColumnDef c with
    | error e => rw [hfc] at hks; cases hks
    | ok k =>
      rw [hfc] at hks
      cases hmc : mapExcept parseColumnDef cs with
      | error e => rw [hmc] at hks; cases hks
      | ok ks2 =>
        rw [hmc] at hks
        cases hks
        have step : gck_loop (c :: (cs ++ tail)) true (some tn) acc =
            gck_loop (cs ++ tail) true (some tn) (acc ++ [k]) := by
          simp only [gck_loop]
          rw [if_neg (by simp [hc1]), if_neg (by simp [hc2])]
          simp [hfc]
        rw [List.cons_append, step, ih _ _ hcs hmc]
        simp

/-- The driver preserves the sink discipline: starting from a trace whose
discipline matches the open flag, a successful run ends with a disciplined,
closed trace. -/
theorem main_fuel_balance (fuel : Nat) :
    ∀ (lines : List String) (output : Option String) (tr0 trace : List Event),
      runBalance false tr0 = some output.isSome →
      main_fuel fuel lines output tr0 = Except.ok trace →
      runBalance false trace = some false := by
  induction fuel with
  | zero =>
    intro lines output tr0 trace h0 h
    simp [main_fuel] at h
  | succ n ih =>
    intro lines output tr0 trace h0 h
    cases lines with
    | nil =>
      simp only [main_fuel] at h
      injection h with h
      subst h
      rw [runBalance_append, h0]
      cases output <;> simp [runBalance]
    | cons line rest =>
      simp only [main_fuel] at h
      by_cases hcr : hasPrefixL createMarker line.data = true
      · rw [if_pos hcr] at h
        cases hg : get_create_keys (line :: rest) with
        | error e => rw [hg] at h; simp at h
        | ok res =>
          obtain ⟨tname, keys, rest2⟩ := res
          rw [hg] at h
          refine ih rest2 (some (tname ++ ".csv")) _ trace ?_ h
          rw [runBalance_append, runBalance_append, h0]
          cases output <;> simp [runBalance]
      · rw [if_neg hcr] at h
        by_cases hins : is_insert line = true
        · rw [if_pos hins] at h
          cases hs : values_sanity_check (get_insert_values line) with
          | error e => rw [hs] at h; simp at h
          | ok b =>
            rw [hs] at h
            cases output with
            | none => simp at h
            | some f =>
              cases hp : parse_values (get_insert_values line) with
              | error e => rw [hp] at h; simp at h
              | ok rows =>
                rw [hp] at h
                refine ih rest (some f) _ trace ?_ h
                rw [runBalance_append, h0]
                simp [runBalance_writeRows]
        · rw [if_neg hins] at h
          exact ih rest output tr0 trace h0 h

/-! ### Claims -/

/-- Claim C1: on the two-tuple value list pairing 1 with a and 2 with b
(values quoted with single quotes, list closed by a semicolon),
`parse_values` emits exactly two rows to the sink, in order: first
["1", "a"], then ["2", "b"], with the parens, the quotes and the trailing
semicolon stripped. -/
theorem parse_values_two_rows :
    parse_values ("(1," ++ sqStr ++ "a" ++ sqStr ++ "),(2," ++ sqStr ++ "b" ++ sqStr ++ ");") =
      Except.ok [["1", "a"], ["2", "b"]] := rfl


/-- Claim C2: for a decoded field starting with an open paren (and a row
accumulator whose last field, if any, is non-empty), a new row is started
iff the accumulator is non-empty and its last field ends in a close paren;
in that case the close paren is stripped from that last field, the completed
row is emitted, and the accumulator restarts with the current field minus
its leading paren; otherwise the field is appended, with its leading paren
stripped exactly when the accumulator is empty. -/
theorem parse_values_row_boundary (acc : List String) (column : String)
    (hp : column.data.head? = some '(')
    (hne : acc.getLast?.all (fun f => !f.data.isEmpty) = true) :
    processColumn acc column =
      (if acc.getLast?.bind (fun f => f.data.getLast?) = some ')' then
        Except.ok ([String.mk (column.data.drop 1)],
          some (acc.dropLast ++ [String.mk ((acc.getLast?.getD "").data.dropLast)]))
      else
        Except.ok (acc ++ [if acc.isEmpty then String.mk (column.data.drop 1) else column],
          none)) := by
  have hcol : ¬(column.data = [] ∨ column = "NULL") := by
    rintro (h | h)
    · rw [h] at hp; simp at hp
    · rw [h] at hp; exact absurd hp (by decide)
  unfold processColumn
  rw [if_neg hcol, if_pos hp]
  cases hl : acc.getLast? with
  | none =>
    have hacc : acc = [] := List.getLast?_eq_none_iff.mp hl
    subst hacc
    simp
  | some lastF =>
    have hanil : acc ≠ [] := by
      intro he; rw [he] at hl; simp at hl
    rw [hl] at hne
    simp only [Option.all_some, Bool.not_eq_true', Bool.not_eq_false] at hne
    have hld : lastF.data ≠ [] := by
      intro he
      have : lastF.isEmpty = true := by
        rw [String.isEmpty_iff]
        cases lastF
        simp_all
      simp_all
    cases hfl : lastF.data.getLast? with
    | none => exact absurd (List.getLast?_eq_none_iff.mp hfl) hld
    | some c =>
      have hae : acc.isEmpty = false := by
        cases acc
        · exact absurd rfl hanil
        · rfl
      by_cases hc : c = ')'
      · subst hc
        simp [hfl, hl]
      · simp [hfl, hc, hae]

/-- Witness for claim C2 at a concrete boundary: accumulator ["1", "a)"]
meeting the field "(2" flushes the row ["1", "a"] and restarts with ["2"]. -/
theorem parse_values_row_boundary_witness :
    processColumn ["1", "a)"] "(2" = Except.ok (["2"], some ["1", "a"]) := by
  have h := parse_values_row_boundary ["1", "a)"] "(2" rfl rfl
  simpa using h

/-- Claim C3: every decoded field that is the empty string or literally the
string NULL is appended to the row as the single NUL byte; in particular the
value list (1,NULL,QxQ) with Q the single quote yields a row whose second
field is the single NUL byte, not the string NULL. -/
theorem parse_values_null_sentinel :
    (∀ (acc : List String) (column : String), column = "" ∨ column = "NULL" →
        processColumn acc column = Except.ok (acc ++ [nulStr], none)) ∧
    parse_values ("(1,NULL," ++ sqStr ++ "x" ++ sqStr ++ ");") =
      Except.ok [["1", nulStr, "x"]] := by
  constructor
  · rintro acc column (rfl | rfl)
    · rfl
    · rfl
  · rfl

/-- Witness for claim C3: the decoded field NULL appended to the accumulator
["1"] becomes the NUL sentinel. -/
theorem parse_values_null_sentinel_witness :
    processColumn ["1"] "NULL" = Except.ok (["1", nulStr], none) :=
  parse_values_null_sentinel.1 ["1"] "NULL" (Or.inr rfl)

/-- Counterexample to claim C4: in the first position of a tuple the keyword
NULL is not replaced by the NUL sentinel.  The decoded field there is
open-paren NULL, which fails the sentinel test before the paren is stripped,
so the value list (NULL,1); yields the literal first field NULL. -/
theorem null_sentinel_boundary_counterexample :
    parse_values "(NULL,1);" = Except.ok [["NULL", "1"]] ∧ "NULL" ≠ nulStr :=
  ⟨rfl, by decide⟩

/-- Claim C4 as amended: the NUL sentinel convention is applied exactly to
the decoded fields that are the empty string or the keyword NULL — for any
accumulator state both become the NUL byte, hence are indistinguishable on
output — but a NULL or empty value in the first or last position of a tuple
decodes with tuple punctuation attached and is therefore left literal, as
the third conjunct shows for the first position. -/
theorem null_sentinel_interior_positions :
    (∀ acc : List String,
        processColumn acc "" = Except.ok (acc ++ [nulStr], none) ∧
        processColumn acc "NULL" = Except.ok (acc ++ [nulStr], none)) ∧
    parse_values ("(1,NULL,2),(1," ++ sqStr ++ sqStr ++ ",2);") =
      Except.ok [["1", nulStr, "2"], ["1", nulStr, "2"]] ∧
    parse_values "(NULL,1);" = Except.ok [["NULL", "1"]] :=
  ⟨fun _ => ⟨rfl, rfl⟩, rfl, rfl⟩

/-- Claim C5: the output type of a column is chosen by prefix rules on the
second whitespace-separated token, tested in the precedence order int or
bigint, timestamp, datetime, date, decimal, bit(1), else STRING (so any
token extending the datetime keyword gets DATETIME, not DATE, and so on);
for the columns id int, name varchar(50), created_at timestamp the emitted
header row is exactly id:INTEGER,name:STRING,created_at:TIMESTAMP followed
by the line terminator. -/
theorem create_keys_header :
    get_create_keys tableLinesC5 =
      Except.ok ("t", ["id:INTEGER", "name:STRING", "created_at:TIMESTAMP"], []) ∧
    write_keys ["id:INTEGER", "name:STRING", "created_at:TIMESTAMP"] =
      "id:INTEGER,name:STRING,created_at:TIMESTAMP" ++ "\r\n" ∧
    (∀ r, typeSuffix (kwInt ++ r) = ":INTEGER") ∧
    (∀ r, typeSuffix (kwBigint ++ r) = ":INTEGER") ∧
    (∀ r, typeSuffix (kwTimestamp ++ r) = ":TIMESTAMP") ∧
    (∀ r, typeSuffix (kwDatetime ++ r) = ":DATETIME") ∧
    (∀ r, typeSuffix (kwDecimal ++ r) = ":FLOAT64") ∧
    (∀ r, typeSuffix (kwBit1 ++ r) = ":BOOL") ∧
    typeSuffix "date".data = ":DATE" ∧
    typeSuffix "varchar(50)".data = ":STRING" :=
  ⟨rfl, rfl, fun _ => rfl, fun _ => rfl, fun _ => rfl, fun _ => rfl, fun _ => rfl,
   fun _ => rfl, rfl, rfl⟩

/-- Claim C6: on an insert line, a value list that is empty or does not
start with an open paren makes the sanity check raise, aborting the run
with no row written (the trace is left exactly as it was); otherwise the
sanity check passes, and with a sink open the driver proceeds by running
the parser and appending its rows to the trace. -/
theorem insert_sanity_fatal (fuel : Nat) (line : String) (rest : List String)
    (output : Option String) (tr : List Event)
    (hins : is_insert line = true) :
    (get_insert_values line = "" ∨ (get_insert_values line).data.head? ≠ some '(' →
      main_fuel (fuel + 1) (line :: rest) output tr =
        Except.error ("AssertionError", tr)) ∧
    ((get_insert_values line).data.head? = some '(' →
      values_sanity_check (get_insert_values line) = Except.ok true) ∧
    (∀ f rows, output = some f →
      (get_insert_values line).data.head? = some '(' →
      parse_values (get_insert_values line) = Except.ok rows →
      main_fuel (fuel + 1) (line :: rest) output tr =
        main_fuel fuel rest output (tr ++ rows.map Event.writeRow)) := by
  have hmark : hasPrefixL insertMarker line.data = true := by
    simpa [is_insert] using hins
  have hcr : hasPrefixL createMarker line.data = false := insert_marker_not_create hmark
  have hokcase : ∀ hv : (get_insert_values line).data.head? = some '(',
      values_sanity_check (get_insert_values line) = Except.ok true := by
    intro hv
    have hnn : (get_insert_values line).data ≠ [] := by
      intro he; rw [he] at hv; simp at hv
    unfold values_sanity_check
    rw [if_neg hnn, if_pos hv]
  refine ⟨?_, hokcase, ?_⟩
  · intro hv
    have hsc : values_sanity_check (get_insert_values line) =
        Except.error "AssertionError" := by
      unfold values_sanity_check
      rcases hv with hv | hv
      · rw [if_pos (by rw [hv])]
      · by_cases he : (get_insert_values line).data = []
        · rw [if_pos he]
        · rw [if_neg he, if_neg hv]
    simp only [main_fuel]
    rw [if_neg (by simp [hcr]), if_pos hins, hsc]
  · intro f rows hf hv hp
    subst hf
    simp only [main_fuel]
    rw [if_neg (by simp [hcr]), if_pos hins, hokcase hv, hp]

/-- Witness for claim C6: an insert line whose value list starts with the
letter x aborts with an assertion error, writing nothing. -/
theorem insert_sanity_fatal_witness :
    main_fuel 1 ["INSERT INTO `t` VALUES x;\n"] (some "t.csv") [] =
      Except.error ("AssertionError", []) :=
  (insert_sanity_fatal 0 "INSERT INTO `t` VALUES x;\n" [] (some "t.csv") [] rfl).1
    (Or.inr (by decide))

/-- Claim C7: a successful driver run keeps at most one sink open at every
point of the trace: an open is refused while a sink is open, a close or a
write is refused while none is, and the final sink is closed at end of
input.  This is the sink discipline checked by `runBalance`. -/
theorem driver_single_sink (fuel : Nat) (lines : List String) (trace : List Event)
    (h : main_fuel fuel lines none [] = Except.ok trace) :
    runBalance false trace = some false :=
  main_fuel_balance fuel lines none [] trace rfl h

/-- Witness for claim C7: two consecutive table definition blocks with
inserts produce two distinct sinks, the first closed before the second is
opened, each receiving only the header and rows of its own table, and the
trace passes the sink discipline check. -/
theorem driver_single_sink_witness :
    main_fuel 9 linesC7 none [] = Except.ok
      [Event.openSink "a.csv", Event.writeHeader ["x:INTEGER"],
       Event.writeRow ["1"], Event.writeRow ["2"], Event.closeSink,
       Event.openSink "b.csv", Event.writeHeader ["y:STRING"],
       Event.writeRow ["7"], Event.closeSink] ∧
    runBalance false
      [Event.openSink "a.csv", Event.writeHeader ["x:INTEGER"],
       Event.writeRow ["1"], Event.writeRow ["2"], Event.closeSink,
       Event.openSink "b.csv", Event.writeHeader ["y:STRING"],
       Event.writeRow ["7"], Event.closeSink] = some false :=
  ⟨rfl, driver_single_sink 9 linesC7 _ rfl⟩

/-- Claim C8: the schema extractor takes the table name from between the
first and second backtick of the opener line and consumes column definition
lines up to the first structural terminator; the terminator line is
consumed (the unread rest of the input starts after it) and contributes no
column. -/
theorem get_create_keys_block (opener endLine : String) (cols rest ks : List String)
    (hop : hasPrefixL createMarker opener.data = true)
    (hterm : isCreateEnd endLine = true)
    (hcols : ∀ l ∈ cols, hasPrefixL createMarker l.data = false ∧ isCreateEnd l = false)
    (hks : mapExcept parseColumnDef cols = Except.ok ks) :
    get_create_keys (opener :: (cols ++ endLine :: rest)) =
      Except.ok (get_table_name opener, ks, rest) := by
  unfold get_create_keys
  have step1 : gck_loop (opener :: (cols ++ endLine :: rest)) false none [] =
      gck_loop (cols ++ endLine :: rest) true (some (get_table_name opener)) [] := by
    simp only [gck_loop]
    rw [if_pos hop]
  have step2 : gck_loop (endLine :: rest) true (some (get_table_name opener)) ([] ++ ks) =
      Except.ok (some (get_table_name opener), [] ++ ks, rest) := by
    simp only [gck_loop]
    rw [if_neg (by simp [create_end_not_create hterm]), if_pos hterm]
  rw [step1,
    gck_loop_cols cols (endLine :: rest) (get_table_name opener) [] ks hcols hks, step2]
  simp

/-- Witness for claim C8: a block with one column line and a primary-key
terminator returns the name between the backticks, the one column, and the
lines after the terminator. -/
theorem get_create_keys_block_witness :
    get_create_keys ["CREATE TABLE `users` (\n", "  `id` int(11) NOT NULL,\n",
        "  PRIMARY KEY (`id`)\n", "tail\n"] =
      Except.ok ("users", ["id:INTEGER"], ["tail\n"]) :=
  get_create_keys_block "CREATE TABLE `users` (\n" "  PRIMARY KEY (`id`)\n"
    ["  `id` int(11) NOT NULL,\n"] ["tail\n"] ["id:INTEGER"]
    rfl rfl (by decide) rfl

/-- Claim C9: the tokenizer splits on commas with the single quote as quote
character and the backslash as escape character, and doubled quotes are not
an escape; a quoted field containing a backslash-escaped quote decodes to a
single field holding one literal quote character, not two fields. -/
theorem tokenizer_quoting :
    csvReadLine "1,2" = Except.ok ["1", "2"] ∧
    csvReadLine (sqStr ++ "O" ++ "\\" ++ sqStr ++ "Brien" ++ sqStr) =
      Except.ok ["O" ++ sqStr ++ "Brien"] ∧
    csvReadLine (sqStr ++ "a" ++ sqStr ++ sqStr ++ "b" ++ sqStr) =
      Except.ok ["a" ++ sqStr ++ "b" ++ sqStr] ∧
    csvReadLine "a\\,b" = Except.ok ["a,b"] :=
  ⟨rfl, rfl, rfl, rfl⟩

/-- Claim C10: when the input ends before any structural terminator, the
schema extractor raises no error and returns the table name together with
every column collected up to end of input. -/
theorem get_create_keys_no_end (opener : String) (cols ks : List String)
    (hop : hasPrefixL createMarker opener.data = true)
    (hcols : ∀ l ∈ cols, hasPrefixL createMarker l.data = false ∧ isCreateEnd l = false)
    (hks : mapExcept parseColumnDef cols = Except.ok ks) :
    get_create_keys (opener :: cols) =
      Except.ok (get_table_name opener, ks, []) := by
  unfold get_create_keys
  have step1 : gck_loop (opener :: cols) false none [] =
      gck_loop cols true (some (get_table_name opener)) [] := by
    simp only [gck_loop]
    rw [if_pos hop]
  have step2 := gck_loop_cols cols [] (get_table_name opener) [] ks hcols hks
  rw [List.append_nil] at step2
  rw [step1, step2]
  simp [gck_loop]

/-- Witness for claim C10: a block cut short by end of input still returns
the name and the collected columns. -/
theorem get_create_keys_no_end_witness :
    get_create_keys ["CREATE TABLE `logs` (\n", "  `msg` text NOT NULL\n"] =
      Except.ok ("logs", ["msg:STRING"], []) :=
  get_create_keys_no_end "CREATE TABLE `logs` (\n" ["  `msg` text NOT NULL\n"]
    ["msg:STRING"] rfl (by decide) rfl
